import Mathlib

/-!
Verification of the angle–energy conversion core of the
`bluesky-testing-ground` repository (`src/triple_axis/devices.py` and
`src/triple_axis/devices_bak.py`).

The numerical code operates on numpy floating-point scalars.  We embed those
values as an idealised carrier `NF`: a real number, a signed infinity, or
not-a-number, with the numpy/IEEE propagation rules for the operations the
source actually uses (`*`, `/`, `np.sin`, `np.arcsin`, `np.radians`,
`np.degrees`, `np.sign`, `np.isclose`, `np.isnan`).  The real-number model has
a single zero, which we identify with IEEE `+0.0`; the sign of an infinity
produced by dividing by a zero therefore follows the `+0.0` convention.
-/

/-- A numpy floating-point scalar: finite real, `+inf`, `-inf`, or `nan`. -/
inductive NF where
  | fin (x : ℝ)
  | pinf
  | ninf
  | nan

/-- `np.isnan`. -/
def NF.isNan : NF → Bool
  | .nan => true
  | _ => false

/-- `np.isinf`: true on either infinity. -/
def NF.isInf : NF → Bool
  | .pinf => true
  | .ninf => true
  | _ => false

/-- IEEE multiplication on the carrier; `nan` is absorbing, `0 * inf = nan`. -/
noncomputable def NF.mul : NF → NF → NF
  | .nan, _ => .nan
  | _, .nan => .nan
  | .fin x, .fin y => .fin (x * y)
  | .fin x, .pinf => if x = 0 then .nan else if 0 < x then .pinf else .ninf
  | .fin x, .ninf => if x = 0 then .nan else if 0 < x then .ninf else .pinf
  | .pinf, .fin y => if y = 0 then .nan else if 0 < y then .pinf else .ninf
  | .ninf, .fin y => if y = 0 then .nan else if 0 < y then .ninf else .pinf
  | .pinf, .pinf => .pinf
  | .pinf, .ninf => .ninf
  | .ninf, .pinf => .ninf
  | .ninf, .ninf => .pinf

/-- IEEE division on the carrier.  A finite nonzero numerator over the (single,
positive) zero gives the correspondingly signed infinity; `0/0`, `inf/inf`
give `nan`; a finite numerator over an infinity gives zero. -/
noncomputable def NF.div : NF → NF → NF
  | .nan, _ => .nan
  | _, .nan => .nan
  | .fin x, .fin y =>
      if y = 0 then (if x = 0 then .nan else if 0 < x then .pinf else .ninf)
      else .fin (x / y)
  | .fin _, .pinf => .fin 0
  | .fin _, .ninf => .fin 0
  | .pinf, .fin y => if 0 ≤ y then .pinf else .ninf
  | .ninf, .fin y => if 0 ≤ y then .ninf else .pinf
  | .pinf, _ => .nan
  | .ninf, _ => .nan

/-- `np.sin`: `sin` of a finite value, `nan` on infinities and `nan`. -/
noncomputable def NF.sin : NF → NF
  | .fin x => .fin (Real.sin x)
  | _ => .nan

/-- `np.arcsin`: defined on `[-1, 1]`, `nan` outside and on non-finite input. -/
noncomputable def NF.arcsin : NF → NF
  | .fin x => if |x| ≤ 1 then .fin (Real.arcsin x) else .nan
  | _ => .nan

/-- `np.radians`: multiply by `pi / 180`, preserving infinities. -/
noncomputable def NF.radians : NF → NF
  | .fin x => .fin (x * Real.pi / 180)
  | .pinf => .pinf
  | .ninf => .ninf
  | .nan => .nan

/-- `np.degrees`: multiply by `180 / pi`, preserving infinities. -/
noncomputable def NF.degrees : NF → NF
  | .fin x => .fin (x * 180 / Real.pi)
  | .pinf => .pinf
  | .ninf => .ninf
  | .nan => .nan

/-- `np.sign`: `-1`, `0` or `1` on finite values, `±1` on infinities,
`nan` on `nan`. -/
noncomputable def np_sign : NF → NF
  | .fin x => .fin (if x < 0 then -1 else if x = 0 then 0 else 1)
  | .pinf => .fin 1
  | .ninf => .fin (-1)
  | .nan => .nan

/-- `np.isclose` with the default tolerances `rtol = 1e-5`, `atol = 1e-8` and
`equal_nan = False`: finite values compare by `|a - b| <= atol + rtol * |b|`,
equal infinities compare close, and `nan` is close to nothing. -/
def np_isclose : NF → NF → Prop
  | .fin x, .fin y => |x - y| ≤ 1e-8 + 1e-5 * |y|
  | .pinf, .pinf => True
  | .ninf, .ninf => True
  | _, _ => False

/-- Classical decidability for the `np.isclose` test, used to branch on it the
way the source does. -/
noncomputable instance (a b : NF) : Decidable (np_isclose a b) :=
  Classical.propDecidable _

/-- `MockTavi.tavi_bragg_angle_to_energy` from `devices_bak.py`:
`81.81 / (d_spacing * np.sin(np.radians(angle)))`. -/
noncomputable def MockTavi.tavi_bragg_angle_to_energy (angle d_spacing : ℝ) : NF :=
  NF.div (NF.fin 81.81)
    (NF.mul (NF.fin d_spacing) (NF.sin (NF.radians (NF.fin angle))))

/-- `MockTavi.tavi_bragg_energy_to_angle` from `devices_bak.py`:
`np.degrees(np.arcsin(81.81 / (d_spacing * energy)))`. -/
noncomputable def MockTavi.tavi_bragg_energy_to_angle (energy d_spacing : ℝ) : NF :=
  NF.degrees (NF.arcsin (NF.div (NF.fin 81.81)
    (NF.mul (NF.fin d_spacing) (NF.fin energy))))

/-- Evaluation lemma: multiplication of two finite values. -/
theorem NF.mul_fin (x y : ℝ) : NF.mul (NF.fin x) (NF.fin y) = NF.fin (x * y) := rfl

/-- Evaluation lemma: division of finite values with nonzero denominator. -/
theorem NF.div_fin (x y : ℝ) (hy : y ≠ 0) :
    NF.div (NF.fin x) (NF.fin y) = NF.fin (x / y) := by
  simp [NF.div, hy]

/-- Evaluation lemma: positive finite value over zero is `+inf`. -/
theorem NF.div_fin_zero (x : ℝ) (hx : 0 < x) :
    NF.div (NF.fin x) (NF.fin 0) = NF.pinf := by
  simp [NF.div, hx, hx.ne.symm]

/-- Evaluation lemma: arcsine inside its domain. -/
theorem NF.arcsin_fin_of_le (x : ℝ) (h : |x| ≤ 1) :
    NF.arcsin (NF.fin x) = NF.fin (Real.arcsin x) := by
  simp [NF.arcsin, h]

/-- Evaluation lemma: arcsine outside its domain is `nan`. -/
theorem NF.arcsin_fin_of_gt (x : ℝ) (h : 1 < |x|) :
    NF.arcsin (NF.fin x) = NF.nan := by
  simp [NF.arcsin, not_le.mpr h]

/-- The mock converter, written out on a finite in-domain argument. -/
theorem MockTavi.energy_to_angle_eq (energy d_spacing : ℝ)
    (hde : d_spacing * energy ≠ 0) (harg : |81.81 / (d_spacing * energy)| ≤ 1) :
    MockTavi.tavi_bragg_energy_to_angle energy d_spacing =
      NF.fin (Real.arcsin (81.81 / (d_spacing * energy)) * 180 / Real.pi) := by
  rw [MockTavi.tavi_bragg_energy_to_angle, NF.mul_fin, NF.div_fin _ _ hde,
    NF.arcsin_fin_of_le _ harg, NF.degrees]

/-- The mock converter, `nan` on an out-of-domain argument. -/
theorem MockTavi.energy_to_angle_nan (energy d_spacing : ℝ)
    (harg : 1 < |81.81 / (d_spacing * energy)|) :
    MockTavi.tavi_bragg_energy_to_angle energy d_spacing = NF.nan := by
  have hde : d_spacing * energy ≠ 0 := by
    intro h
    rw [h, div_zero, abs_zero] at harg
    exact absurd harg (by norm_num)
  rw [MockTavi.tavi_bragg_energy_to_angle, NF.mul_fin, NF.div_fin _ _ hde,
    NF.arcsin_fin_of_gt _ harg, NF.degrees]

/-- The mock converter in the other direction, on a nonzero denominator. -/
theorem MockTavi.angle_to_energy_eq (angle d_spacing : ℝ)
    (h : d_spacing * Real.sin (angle * Real.pi / 180) ≠ 0) :
    MockTavi.tavi_bragg_angle_to_energy angle d_spacing =
      NF.fin (81.81 / (d_spacing * Real.sin (angle * Real.pi / 180))) := by
  rw [MockTavi.tavi_bragg_angle_to_energy, NF.radians, NF.sin, NF.mul_fin,
    NF.div_fin _ _ h]

/-!
The `EnergySelectorDevice` of `devices.py`.  The device's observable state is
the two angle channels and the derived energy signal.  `set` additionally
produces the sequence of effects it performs (channel writes in order, the
trusted energy write, and the terminal report on the `DeviceStatus` completion
handle), so that write order and the error path are part of the model.

The Bragg conversion used by `set` is `self.params.get_bragg_angle_from_energy`
from the external `tavi` package, which is not part of this repository; it is
modelled from the spec below.
-/

/-- Crystal parameters handed to the device (`MonoAna` of the `tavi` package):
only `d_spacing` and the rotation `sense` are consumed by the code under
verification. -/
structure MonoAna where
  d_spacing : ℝ
  sense : ℝ

/-- Observable state of an `EnergySelectorDevice`: the two angle channels and
the derived energy signal. -/
structure DeviceState where
  pv_a1 : NF
  pv_a2 : NF
  energy : NF

/-- Effects performed by `set`: channel and signal writes, and the terminal
report delivered through the `DeviceStatus` completion handle
(`set_finished` or `set_exception`). -/
inductive Ev where
  | putA1 (v : NF)
  | putA2 (v : NF)
  | putEnergy (v : NF)
  | statusFinished
  | statusError (msg : String)

/-- `EnergySelectorDevice.set` of `devices.py`, parameterised over the external
conversion call (which may raise): compute `theta`; if it is `nan`, report
`ValueError("Invalid energy value")` through the handle and perform no write;
otherwise write `theta` to channel 1, `2 * theta` to channel 2, set the energy
signal to the requested value, and mark the handle finished.  The surrounding
`try` captures any exception from the conversion and reports it through the
handle. -/
noncomputable def EnergySelectorDevice.setWith (conv : ℝ → Except String NF)
    (energy : ℝ) (s : DeviceState) : DeviceState × List Ev :=
  match conv energy with
  | .error e => (s, [Ev.statusError e])
  | .ok theta =>
      if theta.isNan then (s, [Ev.statusError "Invalid energy value"])
      else
        let two_theta := NF.mul (NF.fin 2) theta
        (⟨theta, two_theta, NF.fin energy⟩,
         [Ev.putA1 theta, Ev.putA2 two_theta, Ev.putEnergy (NF.fin energy),
          Ev.statusFinished])

/-- Modelled from the spec: `MonoAna.get_bragg_angle_from_energy` lives in the
external `tavi` package and its source is not part of this repository.  The
spec describes the production conversion as `BraggConverter.energy_to_angle`,
i.e. `degrees(arcsin(K / (d_spacing * energy)))` with `K = 81.81` — the same
formula as `MockTavi.tavi_bragg_energy_to_angle`. -/
noncomputable def MonoAna.get_bragg_angle_from_energy (params : MonoAna)
    (energy : ℝ) : NF :=
  MockTavi.tavi_bragg_energy_to_angle energy params.d_spacing

/-- `EnergySelectorDevice.set` of `devices.py` with the concrete (spec-modelled)
conversion, which always returns normally. -/
noncomputable def EnergySelectorDevice.set (params : MonoAna) (energy : ℝ)
    (s : DeviceState) : DeviceState × List Ev :=
  EnergySelectorDevice.setWith
    (fun e => Except.ok (params.get_bragg_angle_from_energy e)) energy s

/-- `EnergySelectorDevice._compute_energy` of `devices.py`, parameterised over
the fallible recomputation of energy from the observed angle: if the sign of
the angle on channel 1 is `np.isclose` to the configured sense, recompute the
energy and publish it; on any exception, publish `0.0` instead; on a sense
mismatch, do nothing.  By construction the handler always returns a state and
never propagates an exception. -/
noncomputable def EnergySelectorDevice.computeEnergyWith (params : MonoAna)
    (recompute : NF → Except String NF) (s : DeviceState) : DeviceState :=
  if np_isclose (np_sign s.pv_a1) (NF.fin params.sense) then
    match recompute s.pv_a1 with
    | .ok v => { s with energy := v }
    | .error _ => { s with energy := NF.fin 0 }
  else s

/-- `EnergySelectorDevice._compute_energy` of `devices.py` as written: the body
reads `self.mono.get_energy_from_bragg_angle(angle)`, but no `mono` attribute
is ever defined on the device (the constructor stores the parameter object as
`self.params`), so whenever the sense check passes the lookup raises
`AttributeError` and the `except` clause publishes `0.0`. -/
noncomputable def EnergySelectorDevice.compute_energy (params : MonoAna)
    (s : DeviceState) : DeviceState :=
  EnergySelectorDevice.computeEnergyWith params
    (fun _ => Except.error "AttributeError: no attribute mono") s

/-!
Helper lemmas for `np.sign` and `np.isclose`, shared by the device theorems.
-/

/-- `np.sign` of a positive finite value is `1`. -/
theorem np_sign_fin_pos (x : ℝ) (h : 0 < x) : np_sign (NF.fin x) = NF.fin 1 := by
  simp [np_sign, not_lt.mpr h.le, h.ne.symm]

/-- `np.sign` of a negative finite value is `-1`. -/
theorem np_sign_fin_neg (x : ℝ) (h : x < 0) : np_sign (NF.fin x) = NF.fin (-1) := by
  simp [np_sign, h]

/-- `np.sign` of zero is `0`. -/
theorem np_sign_fin_zero : np_sign (NF.fin 0) = NF.fin 0 := by
  simp [np_sign]

/-- A finite value is `np.isclose` to itself. -/
theorem np_isclose_self (x : ℝ) : np_isclose (NF.fin x) (NF.fin x) := by
  simp only [np_isclose, sub_self, abs_zero]
  positivity

/-- Finite values at distance at least `1`, with the reference of magnitude at
most `1`, are not `np.isclose` under the default tolerances. -/
theorem not_np_isclose_of_one_le (a b : ℝ) (h1 : 1 ≤ |a - b|) (h2 : |b| ≤ 1) :
    ¬ np_isclose (NF.fin a) (NF.fin b) := by
  simp only [np_isclose]
  intro hc
  have : (1e-8 : ℝ) + 1e-5 * |b| ≤ 1e-8 + 1e-5 * 1 := by nlinarith
  nlinarith

/-- Claim C1: for every requested energy whose computed Bragg angle is not
not-a-number, `set` writes the angle to channel 1 and then its double to
channel 2 (channel 1 first), sets the energy signal to exactly the requested
value (trusted, not recomputed), and marks the completion handle finished
successfully. -/
theorem set_valid_energy_writes_in_order (params : MonoAna) (E : ℝ)
    (s : DeviceState)
    (h : (params.get_bragg_angle_from_energy E).isNan = false) :
    EnergySelectorDevice.set params E s =
      (⟨params.get_bragg_angle_from_energy E,
        NF.mul (NF.fin 2) (params.get_bragg_angle_from_energy E),
        NF.fin E⟩,
       [Ev.putA1 (params.get_bragg_angle_from_energy E),
        Ev.putA2 (NF.mul (NF.fin 2) (params.get_bragg_angle_from_energy E)),
        Ev.putEnergy (NF.fin E), Ev.statusFinished]) := by
  simp only [EnergySelectorDevice.set, EnergySelectorDevice.setWith, h]
  simp

/-- Witness for C1: a concrete valid request (`E = 100`, `d = 3.35`) takes the
success path with both channel writes in order and the trusted energy. -/
theorem set_valid_energy_writes_in_order_witness :
    (MonoAna.get_bragg_angle_from_energy ⟨3.35, -1⟩ 100).isNan = false ∧
    EnergySelectorDevice.set ⟨3.35, -1⟩ 100 ⟨NF.fin 0, NF.fin 0, NF.fin 0⟩ =
      (⟨MonoAna.get_bragg_angle_from_energy ⟨3.35, -1⟩ 100,
        NF.mul (NF.fin 2) (MonoAna.get_bragg_angle_from_energy ⟨3.35, -1⟩ 100),
        NF.fin 100⟩,
       [Ev.putA1 (MonoAna.get_bragg_angle_from_energy ⟨3.35, -1⟩ 100),
        Ev.putA2 (NF.mul (NF.fin 2)
          (MonoAna.get_bragg_angle_from_energy ⟨3.35, -1⟩ 100)),
        Ev.putEnergy (NF.fin 100), Ev.statusFinished]) := by
  have h : (MonoAna.get_bragg_angle_from_energy ⟨3.35, -1⟩ 100).isNan = false := by
    rw [MonoAna.get_bragg_angle_from_energy,
      MockTavi.energy_to_angle_eq 100 3.35 (by norm_num)
        (by rw [abs_le]; constructor <;> norm_num)]
    rfl
  exact ⟨h, set_valid_energy_writes_in_order ⟨3.35, -1⟩ 100 _ h⟩

/-- Claim C2: for every requested energy whose computed Bragg angle is
not-a-number, `set` reports the invalid-energy error through the completion
handle, performs no channel write, and leaves the whole device state (energy
included) unchanged. -/
theorem set_invalid_energy_leaves_state (params : MonoAna) (E : ℝ)
    (s : DeviceState)
    (h : (params.get_bragg_angle_from_energy E).isNan = true) :
    EnergySelectorDevice.set params E s =
      (s, [Ev.statusError "Invalid energy value"]) := by
  simp only [EnergySelectorDevice.set, EnergySelectorDevice.setWith, h]
  simp

/-- Witness for C2: `E = 10`, `d = 3.35` is out of the arcsine domain, so the
set fails and a concrete prior state is returned untouched. -/
theorem set_invalid_energy_leaves_state_witness :
    (MonoAna.get_bragg_angle_from_energy ⟨3.35, 1⟩ 10).isNan = true ∧
    EnergySelectorDevice.set ⟨3.35, 1⟩ 10 ⟨NF.fin 1, NF.fin 2, NF.fin 3⟩ =
      (⟨NF.fin 1, NF.fin 2, NF.fin 3⟩,
       [Ev.statusError "Invalid energy value"]) := by
  have h : (MonoAna.get_bragg_angle_from_energy ⟨3.35, 1⟩ 10).isNan = true := by
    rw [MonoAna.get_bragg_angle_from_energy,
      MockTavi.energy_to_angle_nan 10 3.35
        (by rw [abs_of_pos (by norm_num)]; rw [one_lt_div (by norm_num)]; norm_num)]
    rfl
  exact ⟨h, set_invalid_energy_leaves_state ⟨3.35, 1⟩ 10 _ h⟩

/-- Claim C5: `energy_to_angle` returns not-a-number, rather than raising,
whenever the arcsine argument `81.81 / (d * E)` has magnitude above `1`. -/
theorem energy_to_angle_out_of_domain_nan (E d : ℝ)
    (h : 1 < |81.81 / (d * E)|) :
    MockTavi.tavi_bragg_energy_to_angle E d = NF.nan :=
  MockTavi.energy_to_angle_nan E d h

/-- Witness for C5: the particular instance named by the claim,
`energy_to_angle(10, 3.35)` is not-a-number. -/
theorem energy_to_angle_out_of_domain_nan_witness :
    MockTavi.tavi_bragg_energy_to_angle 10 3.35 = NF.nan :=
  energy_to_angle_out_of_domain_nan 10 3.35
    (by rw [abs_of_pos (by norm_num)]; rw [one_lt_div (by norm_num)]; norm_num)

/-- Claim C9: `angle_to_energy` with `d_spacing = 0` returns an infinite value
rather than raising, and likewise whenever `sin(radians(angle)) = 0`.  (The
real-number carrier has a single zero, identified with IEEE `+0.0`, so the
infinity produced here is the positive one; the claim only requires an
infinite result.) -/
theorem angle_to_energy_zero_denominator_inf (angle d : ℝ) :
    (MockTavi.tavi_bragg_angle_to_energy angle 0).isInf = true ∧
    (Real.sin (angle * Real.pi / 180) = 0 →
      (MockTavi.tavi_bragg_angle_to_energy angle d).isInf = true) := by
  constructor
  · simp only [MockTavi.tavi_bragg_angle_to_energy, NF.radians, NF.sin,
      NF.mul_fin, zero_mul]
    rw [NF.div_fin_zero _ (by norm_num)]
    rfl
  · intro hs
    simp only [MockTavi.tavi_bragg_angle_to_energy, NF.radians, NF.sin,
      NF.mul_fin, hs, mul_zero]
    rw [NF.div_fin_zero _ (by norm_num)]
    rfl

/-- Witness for C9: `d = 0` at `angle = 30`, and `angle = 0` (a multiple of
180 degrees) at `d = 3.35`, both give an infinite energy. -/
theorem angle_to_energy_zero_denominator_inf_witness :
    (MockTavi.tavi_bragg_angle_to_energy 30 0).isInf = true ∧
    (MockTavi.tavi_bragg_angle_to_energy 0 3.35).isInf = true := by
  refine ⟨(angle_to_energy_zero_denominator_inf 30 3.35).1,
    (angle_to_energy_zero_denominator_inf 0 3.35).2 ?_⟩
  rw [zero_mul, zero_div, Real.sin_zero]

/-- Claim C4: when the observed angle on channel 1 has a sign that does not
match the configured sense — a positive angle against sense `-1`, a negative
angle against sense `+1`, or an angle of exactly `0`, whose sign `0` matches
neither sense — the angle-changed handler leaves the device state, energy
included, unchanged. -/
theorem compute_energy_sense_mismatch_ignored (params : MonoAna) (angle : ℝ)
    (s : DeviceState) (hsense : params.sense = 1 ∨ params.sense = -1)
    (ha : s.pv_a1 = NF.fin angle)
    (hmis : angle = 0 ∨ (0 < angle ∧ params.sense = -1) ∨
      (angle < 0 ∧ params.sense = 1)) :
    EnergySelectorDevice.compute_energy params s = s := by
  rw [EnergySelectorDevice.compute_energy, EnergySelectorDevice.computeEnergyWith,
    if_neg]
  rw [ha]
  rcases hmis with h0 | ⟨hp, hsn⟩ | ⟨hn, hsp⟩
  · subst h0
    rw [np_sign_fin_zero]
    rcases hsense with h | h <;> rw [h] <;>
        refine not_np_isclose_of_one_le _ _ ?_ ?_
    · rw [show (0:ℝ) - 1 = -1 by norm_num, abs_neg, abs_one]
    · rw [abs_one]
    · rw [show (0:ℝ) - -1 = 1 by norm_num, abs_one]
    · rw [abs_neg, abs_one]
  · rw [np_sign_fin_pos _ hp, hsn]
    refine not_np_isclose_of_one_le _ _ ?_ ?_
    · rw [show (1:ℝ) - -1 = 2 by norm_num, abs_of_pos (by norm_num : (0:ℝ) < 2)]
      norm_num
    · rw [abs_neg, abs_one]
  · rw [np_sign_fin_neg _ hn, hsp]
    refine not_np_isclose_of_one_le _ _ ?_ ?_
    · rw [show (-1:ℝ) - 1 = -2 by norm_num, abs_neg,
        abs_of_pos (by norm_num : (0:ℝ) < 2)]
      norm_num
    · rw [abs_one]

/-- Witness for C4: sense `-1` with a positive observed angle `5`; the handler
returns the state unchanged. -/
theorem compute_energy_sense_mismatch_ignored_witness :
    EnergySelectorDevice.compute_energy ⟨3.35, -1⟩ ⟨NF.fin 5, NF.fin 10, NF.fin 7⟩ =
      ⟨NF.fin 5, NF.fin 10, NF.fin 7⟩ :=
  compute_energy_sense_mismatch_ignored ⟨3.35, -1⟩ 5 _ (Or.inr rfl) rfl
    (Or.inr (Or.inl ⟨by norm_num, rfl⟩))

/-- Claim C3 evidence (code bug): on a correctly-signed angle (`sense = +1`,
observed angle `45`), `_compute_energy` as written publishes `0.0` — the body
reads the never-defined attribute `self.mono`, the resulting `AttributeError`
is caught, and the fallback fires — whereas the Bragg inverse the claim (and
the rest of the repository) prescribes, `angle_to_energy(45, 3.35)`, is a
nonzero energy. -/
theorem compute_energy_publishes_zero_not_inverse_bragg :
    EnergySelectorDevice.compute_energy ⟨3.35, 1⟩
        ⟨NF.fin 45, NF.fin 90, NF.fin 7⟩ =
      ⟨NF.fin 45, NF.fin 90, NF.fin 0⟩ ∧
    MockTavi.tavi_bragg_angle_to_energy 45 3.35 ≠ NF.fin 0 := by
  constructor
  · rw [EnergySelectorDevice.compute_energy,
      EnergySelectorDevice.computeEnergyWith, if_pos]
    show np_isclose (np_sign (NF.fin 45)) (NF.fin 1)
    rw [np_sign_fin_pos 45 (by norm_num)]
    exact np_isclose_self 1
  · intro h
    by_cases hden : (3.35:ℝ) * Real.sin (45 * Real.pi / 180) = 0
    · rw [MockTavi.tavi_bragg_angle_to_energy] at h
      simp only [NF.radians, NF.sin, NF.mul_fin] at h
      rw [hden, NF.div_fin_zero _ (by norm_num)] at h
      exact NF.noConfusion h
    · rw [MockTavi.angle_to_energy_eq 45 3.35 hden] at h
      have := NF.fin.inj h
      exact absurd this (div_ne_zero (by norm_num) hden)

/-- Claim C8: errors never escape.  For the angle-changed handler: whatever
exception the energy recomputation raises, the handler returns normally with
energy forced to `0.0`.  For `set`: whatever exception the conversion step
raises, `set` returns normally and reports the exception through the
completion handle, leaving the state unchanged. -/
theorem device_errors_never_propagate (params : MonoAna)
    (recompute : NF → Except String NF) (s : DeviceState) (err : String)
    (conv : ℝ → Except String NF) (E : ℝ) (s2 : DeviceState) (err2 : String) :
    (np_isclose (np_sign s.pv_a1) (NF.fin params.sense) →
      recompute s.pv_a1 = Except.error err →
      EnergySelectorDevice.computeEnergyWith params recompute s =
        { s with energy := NF.fin 0 }) ∧
    (conv E = Except.error err2 →
      EnergySelectorDevice.setWith conv E s2 = (s2, [Ev.statusError err2])) := by
  constructor
  · intro hc hr
    rw [EnergySelectorDevice.computeEnergyWith, if_pos hc, hr]
  · intro hconv
    rw [EnergySelectorDevice.setWith, hconv]

/-- Witness for C8: a concrete raising recomputation and a concrete raising
conversion are both absorbed — the handler publishes `0.0`, `set` reports the
error through the handle. -/
theorem device_errors_never_propagate_witness :
    EnergySelectorDevice.computeEnergyWith ⟨3.35, 1⟩
        (fun _ => Except.error "boom") ⟨NF.fin 45, NF.fin 90, NF.fin 7⟩ =
      ⟨NF.fin 45, NF.fin 90, NF.fin 0⟩ ∧
    EnergySelectorDevice.setWith (fun _ => Except.error "kaput") 5
        ⟨NF.fin 1, NF.fin 2, NF.fin 3⟩ =
      (⟨NF.fin 1, NF.fin 2, NF.fin 3⟩, [Ev.statusError "kaput"]) := by
  have h := device_errors_never_propagate ⟨3.35, 1⟩ (fun _ => Except.error "boom")
    ⟨NF.fin 45, NF.fin 90, NF.fin 7⟩ "boom" (fun _ => Except.error "kaput") 5
    ⟨NF.fin 1, NF.fin 2, NF.fin 3⟩ "kaput"
  refine ⟨h.1 ?_ rfl, h.2 rfl⟩
  show np_isclose (np_sign (NF.fin 45)) (NF.fin 1)
  rw [np_sign_fin_pos 45 (by norm_num)]
  exact np_isclose_self 1

/-- Counterexample to claim C7 as stated: for `d = 3.35 ≠ 0` and the negative
energy `E = -100`, the arcsine argument `81.81 / (3.35 * -100) ≈ -0.244` lies
inside `[-1, 1]`, so `energy_to_angle` returns a finite (negative) angle, not
not-a-number. -/
theorem energy_to_angle_negative_energy_not_nan :
    (3.35:ℝ) ≠ 0 ∧ (-100:ℝ) < 0 ∧
    MockTavi.tavi_bragg_energy_to_angle (-100) 3.35 ≠ NF.nan := by
  refine ⟨by norm_num, by norm_num, ?_⟩
  rw [MockTavi.energy_to_angle_eq (-100) 3.35 (by norm_num)
    (by rw [abs_le]; constructor <;> norm_num)]
  exact fun h => NF.noConfusion h

/-- Claim C7 (amended): for every `d ≠ 0`, `energy_to_angle(0, d)` is
not-a-number (the zero-energy division is treated uniformly with the arcsine
domain error, not propagated as infinity and not raised); and a negative
energy `E < 0` likewise yields not-a-number whenever `|d * E| < 81.81`, i.e.
whenever its arcsine argument is out of domain.  (For negative energies with
`|d * E| ≥ 81.81` the argument is in domain and a finite angle is returned.) -/
theorem energy_to_angle_zero_or_small_negative_nan (d E : ℝ) (hd : d ≠ 0)
    (hE : E < 0) (hsmall : |d * E| < 81.81) :
    MockTavi.tavi_bragg_energy_to_angle 0 d = NF.nan ∧
    MockTavi.tavi_bragg_energy_to_angle E d = NF.nan := by
  constructor
  · rw [MockTavi.tavi_bragg_energy_to_angle, NF.mul_fin, mul_zero,
      NF.div_fin_zero _ (by norm_num)]
    rfl
  · apply MockTavi.energy_to_angle_nan
    have hde : d * E ≠ 0 := mul_ne_zero hd hE.ne
    rw [abs_div, one_lt_div (abs_pos.mpr hde),
      abs_of_pos (by norm_num : (0:ℝ) < 81.81)]
    exact hsmall

/-- Witness for amended C7: `d = 3.35` with `E = 0` and with `E = -10`
(`|d * E| = 33.5 < 81.81`) both give not-a-number. -/
theorem energy_to_angle_zero_or_small_negative_nan_witness :
    MockTavi.tavi_bragg_energy_to_angle 0 3.35 = NF.nan ∧
    MockTavi.tavi_bragg_energy_to_angle (-10) 3.35 = NF.nan :=
  energy_to_angle_zero_or_small_negative_nan 3.35 (-10) (by norm_num)
    (by norm_num)
    (by rw [show (3.35:ℝ) * -10 = -33.5 by norm_num, abs_neg,
          abs_of_pos (by norm_num : (0:ℝ) < 33.5)]
        norm_num)

/-- Claim C10: for a positive d-spacing and energies
`81.81 / d ≤ E1 < E2` (so both arcsine arguments are in domain), the Bragg
angle strictly decreases as energy increases, and the angles are positive. -/
theorem energy_to_angle_strictly_decreasing (d E1 E2 : ℝ) (hd : 0 < d)
    (h1 : 81.81 / d ≤ E1) (h12 : E1 < E2) :
    ∃ a1 a2,
      MockTavi.tavi_bragg_energy_to_angle E1 d = NF.fin a1 ∧
      MockTavi.tavi_bragg_energy_to_angle E2 d = NF.fin a2 ∧
      0 < a2 ∧ a2 < a1 := by
  have hK : (0:ℝ) < 81.81 := by norm_num
  have hE1 : 0 < E1 := lt_of_lt_of_le (div_pos hK hd) h1
  have hE2 : 0 < E2 := hE1.trans h12
  have hdE1 : 0 < d * E1 := mul_pos hd hE1
  have hdE2 : 0 < d * E2 := mul_pos hd hE2
  have hKle : 81.81 ≤ d * E1 := by
    rw [div_le_iff₀ hd] at h1
    linarith [h1]
  have harg1_le : 81.81 / (d * E1) ≤ 1 := (div_le_one hdE1).mpr hKle
  have harg1_pos : 0 < 81.81 / (d * E1) := div_pos hK hdE1
  have harg2_pos : 0 < 81.81 / (d * E2) := div_pos hK hdE2
  have hlt : 81.81 / (d * E2) < 81.81 / (d * E1) :=
    div_lt_div_of_pos_left hK hdE1 (by nlinarith)
  have habs1 : |81.81 / (d * E1)| ≤ 1 := by
    rw [abs_of_pos harg1_pos]; exact harg1_le
  have habs2 : |81.81 / (d * E2)| ≤ 1 := by
    rw [abs_of_pos harg2_pos]; exact hlt.le.trans harg1_le
  refine ⟨_, _, MockTavi.energy_to_angle_eq E1 d hdE1.ne.symm habs1,
    MockTavi.energy_to_angle_eq E2 d hdE2.ne.symm habs2, ?_, ?_⟩
  · have h := Real.arcsin_pos.mpr harg2_pos
    exact div_pos (mul_pos h (by norm_num)) Real.pi_pos
  · have hmono : Real.arcsin (81.81 / (d * E2)) < Real.arcsin (81.81 / (d * E1)) :=
      Real.strictMonoOn_arcsin ⟨by linarith, (abs_le.mp habs2).2⟩
        ⟨by linarith, (abs_le.mp habs1).2⟩ hlt
    rw [div_lt_div_iff₀ Real.pi_pos Real.pi_pos]
    nlinarith [Real.pi_pos, hmono]

/-- Witness for C10: `d = 3.35`, `E1 = 100`, `E2 = 200` give positive,
strictly decreasing angles. -/
theorem energy_to_angle_strictly_decreasing_witness :
    ∃ a1 a2,
      MockTavi.tavi_bragg_energy_to_angle 100 3.35 = NF.fin a1 ∧
      MockTavi.tavi_bragg_energy_to_angle 200 3.35 = NF.fin a2 ∧
      0 < a2 ∧ a2 < a1 :=
  energy_to_angle_strictly_decreasing 3.35 100 200 (by norm_num) (by norm_num)
    (by norm_num)

/-- Counterexample to claim C6 as stated: at `angle = 150`, `d = 3.35` all of
the claim's hypotheses hold — `d ≠ 0`, `sin(radians(150)) = 1/2 ≠ 0`, and the
intermediate arcsine argument is `1/2`, of magnitude at most `1` — yet
`energy_to_angle(angle_to_energy(150, 3.35), 3.35)` is `30`, the
principal-branch angle, which is not within relative tolerance `1e-9` of
`150`. -/
theorem bragg_roundtrip_fails_at_150 :
    (3.35:ℝ) ≠ 0 ∧ Real.sin ((150:ℝ) * Real.pi / 180) ≠ 0 ∧
    (∃ E1, MockTavi.tavi_bragg_angle_to_energy 150 3.35 = NF.fin E1 ∧
      |81.81 / ((3.35:ℝ) * E1)| ≤ 1 ∧
      MockTavi.tavi_bragg_energy_to_angle E1 3.35 = NF.fin 30) ∧
    ¬ (|(30:ℝ) - 150| ≤ 1e-9 * |(150:ℝ)|) := by
  have hs : Real.sin ((150:ℝ) * Real.pi / 180) = 1 / 2 := by
    rw [show (150:ℝ) * Real.pi / 180 = Real.pi - Real.pi / 6 by ring,
      Real.sin_pi_sub, Real.sin_pi_div_six]
  refine ⟨by norm_num, by rw [hs]; norm_num, ?_, ?_⟩
  · refine ⟨81.81 / ((3.35:ℝ) * (1 / 2)), ?_, ?_, ?_⟩
    · rw [MockTavi.angle_to_energy_eq 150 3.35 (by rw [hs]; norm_num), hs]
    · rw [show (3.35:ℝ) * (81.81 / ((3.35:ℝ) * (1 / 2))) = 163.62 by norm_num,
        show (81.81:ℝ) / 163.62 = 1 / 2 by norm_num,
        abs_of_pos (by norm_num : (0:ℝ) < 1 / 2)]
      norm_num
    · have harg : (81.81:ℝ) / ((3.35:ℝ) * (81.81 / ((3.35:ℝ) * (1 / 2)))) = 1 / 2 := by
        norm_num
      have harcsin : Real.arcsin ((1:ℝ) / 2) = Real.pi / 6 := by
        rw [← Real.sin_pi_div_six]
        exact Real.arcsin_sin (by linarith [Real.pi_pos]) (by linarith [Real.pi_pos])
      rw [MockTavi.energy_to_angle_eq _ 3.35 (by norm_num)
          (by rw [harg, abs_of_pos (by norm_num : (0:ℝ) < 1 / 2)]; norm_num),
        harg, harcsin]
      congr 1
      field_simp
      ring
  · rw [show (30:ℝ) - 150 = -120 by norm_num, abs_neg,
      abs_of_pos (by norm_num : (0:ℝ) < 120),
      abs_of_pos (by norm_num : (0:ℝ) < 150)]
    norm_num

/-- Claim C6 (amended): the round-trip reproduces the input exactly (hence
within relative tolerance `1e-9`) on the arcsine principal branch.  For every
`angle, d` with `d ≠ 0`, `sin(radians(angle)) ≠ 0` and `radians(angle)` in
`[-pi/2, pi/2]`, `energy_to_angle(angle_to_energy(angle, d), d) = angle`; and
for every `E, d` with `d * E ≠ 0` and intermediate arcsine argument
`|81.81 / (d * E)| ≤ 1`, `angle_to_energy(energy_to_angle(E, d), d) = E`.
Outside the principal branch the intermediate argument is still in `[-1, 1]`
but the first round-trip returns the principal-branch angle instead of the
original one. -/
theorem bragg_roundtrip_principal_branch (angle E d : ℝ) (hd : d ≠ 0)
    (hs : Real.sin (angle * Real.pi / 180) ≠ 0)
    (hlo : -(Real.pi / 2) ≤ angle * Real.pi / 180)
    (hhi : angle * Real.pi / 180 ≤ Real.pi / 2)
    (hde : d * E ≠ 0) (harg : |81.81 / (d * E)| ≤ 1) :
    (∃ E1, MockTavi.tavi_bragg_angle_to_energy angle d = NF.fin E1 ∧
      MockTavi.tavi_bragg_energy_to_angle E1 d = NF.fin angle) ∧
    (∃ a, MockTavi.tavi_bragg_energy_to_angle E d = NF.fin a ∧
      MockTavi.tavi_bragg_angle_to_energy a d = NF.fin E) := by
  constructor
  · have hden : d * Real.sin (angle * Real.pi / 180) ≠ 0 := mul_ne_zero hd hs
    refine ⟨81.81 / (d * Real.sin (angle * Real.pi / 180)),
      MockTavi.angle_to_energy_eq angle d hden, ?_⟩
    have hE1 : d * (81.81 / (d * Real.sin (angle * Real.pi / 180))) =
        81.81 / Real.sin (angle * Real.pi / 180) := by
      field_simp
      ring
    have hE1ne : d * (81.81 / (d * Real.sin (angle * Real.pi / 180))) ≠ 0 := by
      rw [hE1]
      exact div_ne_zero (by norm_num) hs
    have harg1 : 81.81 / (d * (81.81 / (d * Real.sin (angle * Real.pi / 180)))) =
        Real.sin (angle * Real.pi / 180) := by
      rw [hE1]
      field_simp
    have habs : |81.81 / (d * (81.81 / (d * Real.sin (angle * Real.pi / 180))))| ≤ 1 := by
      rw [harg1, abs_le]
      exact ⟨Real.neg_one_le_sin _, Real.sin_le_one _⟩
    rw [MockTavi.energy_to_angle_eq _ d hE1ne habs, harg1,
      Real.arcsin_sin hlo hhi]
    congr 1
    field_simp
  · refine ⟨Real.arcsin (81.81 / (d * E)) * 180 / Real.pi,
      MockTavi.energy_to_angle_eq E d hde harg, ?_⟩
    have hsin : Real.sin (Real.arcsin (81.81 / (d * E)) * 180 / Real.pi *
        Real.pi / 180) = 81.81 / (d * E) := by
      rw [show Real.arcsin (81.81 / (d * E)) * 180 / Real.pi * Real.pi / 180 =
          Real.arcsin (81.81 / (d * E)) by field_simp,
        Real.sin_arcsin (abs_le.mp harg).1 (abs_le.mp harg).2]
    have hden2 : d * Real.sin (Real.arcsin (81.81 / (d * E)) * 180 / Real.pi *
        Real.pi / 180) ≠ 0 := by
      rw [hsin]
      exact mul_ne_zero hd (div_ne_zero (by norm_num) hde)
    rw [MockTavi.angle_to_energy_eq _ d hden2, hsin]
    congr 1
    field_simp
    ring

/-- Witness for amended C6: `angle = 30` (on the principal branch) with
`d = 3.35`, and `E = 100` with in-domain arcsine argument, both round-trip. -/
theorem bragg_roundtrip_principal_branch_witness :
    (∃ E1, MockTavi.tavi_bragg_angle_to_energy 30 3.35 = NF.fin E1 ∧
      MockTavi.tavi_bragg_energy_to_angle E1 3.35 = NF.fin 30) ∧
    (∃ a, MockTavi.tavi_bragg_energy_to_angle 100 3.35 = NF.fin a ∧
      MockTavi.tavi_bragg_angle_to_energy a 3.35 = NF.fin 100) :=
  bragg_roundtrip_principal_branch 30 100 3.35 (by norm_num)
    (by rw [show (30:ℝ) * Real.pi / 180 = Real.pi / 6 by ring,
          Real.sin_pi_div_six]
        norm_num)
    (by rw [show (30:ℝ) * Real.pi / 180 = Real.pi / 6 by ring]
        linarith [Real.pi_pos])
    (by rw [show (30:ℝ) * Real.pi / 180 = Real.pi / 6 by ring]
        linarith [Real.pi_pos])
    (by norm_num)
    (by rw [abs_le]; constructor <;> norm_num)
